import Mathlib

/-!
Verification of the `@syntropylog/types` package.

The only executable code in the repository is the helper
`errorToJsonValue` in `src/index.ts`:

```
export function errorToJsonValue(error: unknown): JsonValue {
  if (error instanceof Error) {
    return {
      name: error.name,
      message: error.message,
      stack: error.stack || null,
    };
  }
  return String(error);
}
```

We shallowly embed the JavaScript value universe the function can receive
(`unknown`), the platform's abstract `ToString` / `String()` conversions
(which can throw for hostile objects), and the function itself.  Fallible
conversions are modelled with `Except Unit`, where `Except.error ()` stands
for a propagated JavaScript exception.
-/

namespace SyntropyTypes

/-- The `JsonValue` type of `src/index.ts` (lines 17–23): a string, number,
boolean, null, an array of `JsonValue`, or a string-keyed object of
`JsonValue`.  JavaScript numbers are modelled as integers; no claim depends
on non-integral numbers. -/
inductive JsonValue where
  | str (s : String)
  | num (n : Int)
  | bool (b : Bool)
  | null
  | arr (elems : List JsonValue)
  | obj (fields : List (String × JsonValue))

/-- The universe of JavaScript values that can be passed to a parameter of
type `unknown`.  A `vError` is a value whose prototype chain makes
`v instanceof Error` true; it carries the `name` and `message` strings and
the `stack` property (`Option String`: `none` models `undefined`).
A `vObject` is any other object (plain objects, objects with no prototype,
cyclic objects, error mimics); it carries its own property names together
with their values, and the result of its default stringification
(`Except.error ()` models an object whose `toString` throws, or a
null-prototype object, for which `ToPrimitive` throws a `TypeError`). -/
inductive JSValue where
  | vNull
  | vUndefined
  | vBool (b : Bool)
  | vNum (n : Int)
  | vStr (s : String)
  | vSymbol (d : Option String)
  | vArray (elems : List JSValue)
  | vObject (fields : List (String × JSValue)) (toStr : Except Unit String)
  | vError (name message : String) (stack : Option String)

/-- The JavaScript `instanceof Error` test: true exactly for values that
descend from the platform's `Error` type, never for mere error mimics. -/
def instanceofError : JSValue → Bool
  | .vError _ _ _ => true
  | _ => false

/-- Whether a value is an object carrying an own property with this key
(duck-typing test; `errorToJsonValue` never performs it). -/
def hasOwnProperty (v : JSValue) (key : String) : Bool :=
  match v with
  | .vObject fields _ => fields.any (fun p => p.1 = key)
  | _ => false

/-- `Error.prototype.toString` (ES §20.5.3.4): `name` if the message is
empty, `message` if the name is empty, otherwise `name ++ ": " ++ message`. -/
def errorProtoToString (name message : String) : String :=
  if message = "" then name
  else if name = "" then message
  else name ++ ": " ++ message

mutual

/-- The JavaScript abstract `ToString` operation on our value universe.
Primitives convert to their standard strings; a symbol throws a
`TypeError`; an array converts via `Array.prototype.join` with `","`;
any other object yields its carried default-stringification result
(which may throw). -/
def toStringAbs : JSValue → Except Unit String
  | .vNull => .ok "null"
  | .vUndefined => .ok "undefined"
  | .vBool b => .ok (if b then "true" else "false")
  | .vNum n => .ok (toString n)
  | .vStr s => .ok s
  | .vSymbol _ => .error ()
  | .vArray elems => (toStringElems elems).map (String.intercalate ",")
  | .vObject _ toStr => toStr
  | .vError name message _ => .ok (errorProtoToString name message)

/-- `Array.prototype.join`: a `null` or `undefined` element contributes the
empty string, every other element its abstract `ToString` (so a throwing
element makes the whole conversion throw). -/
def toStringElems : List JSValue → Except Unit (List String)
  | [] => .ok []
  | .vNull :: rest => (toStringElems rest).map (fun l => "" :: l)
  | .vUndefined :: rest => (toStringElems rest).map (fun l => "" :: l)
  | x :: rest => do
      let s ← toStringAbs x
      let l ← toStringElems rest
      pure (s :: l)

end

/-- The `String(x)` constructor called as a function (ES §22.1.1.1): a
symbol argument is special-cased to its description string instead of
throwing; every other argument goes through abstract `ToString`. -/
def jsString : JSValue → Except Unit String
  | .vSymbol d => .ok ("Symbol(" ++ d.getD "" ++ ")")
  | v => toStringAbs v

/-- The expression `error.stack || null` from line 80 of `src/index.ts`:
`||` yields `null` for every falsy left operand, i.e. when `stack` is
`undefined` or the empty string; otherwise the stack string itself. -/
def stackOrNull : Option String → JsonValue
  | none => JsonValue.null
  | some s => if s = "" then JsonValue.null else JsonValue.str s

/-- `errorToJsonValue` from `src/index.ts` (lines 75–84).  The
`error instanceof Error` guard is the `vError` constructor test; on that
branch the function builds the record `{name, message, stack: stack || null}`.
Otherwise it returns `String(error)`, whose exception (if any) propagates —
hence the `Except` result. -/
def errorToJsonValue : JSValue → Except Unit JsonValue
  | .vError name message stack =>
      .ok (.obj [("name", .str name), ("message", .str message),
                 ("stack", stackOrNull stack)])
  | v => (jsString v).map .str

/-- Modelled from the spec (§3): the closed set of JSON-safe values — a
string, number, boolean, null, a sequence of JSON-safe values, or a
string-keyed mapping of JSON-safe values.  Being an inductive predicate
over the inductive type `JsonValue`, membership excludes cycles, functions
and native error objects by construction. -/
inductive SpecJsonSafe : JsonValue → Prop where
  | str (s : String) : SpecJsonSafe (.str s)
  | num (n : Int) : SpecJsonSafe (.num n)
  | bool (b : Bool) : SpecJsonSafe (.bool b)
  | null : SpecJsonSafe .null
  | arr (elems : List JsonValue) :
      (∀ x ∈ elems, SpecJsonSafe x) → SpecJsonSafe (.arr elems)
  | obj (fields : List (String × JsonValue)) :
      (∀ p ∈ fields, SpecJsonSafe p.2) → SpecJsonSafe (.obj fields)

/-- A snapshot of any shared mutable state an impure function could touch
(modelled as a list of recorded effects). -/
structure World where
  events : List String

/-- The state-passing embedding of `errorToJsonValue`: every operation the
source performs (`instanceof`, the three property reads, `String(...)`)
is threaded through the world explicitly.  None of them writes, so each
branch returns the incoming world unchanged. -/
def errorToJsonValueSt (w : World) : JSValue → World × Except Unit JsonValue
  | .vError name message stack =>
      (w, .ok (.obj [("name", .str name), ("message", .str message),
                     ("stack", stackOrNull stack)]))
  | v => (w, (jsString v).map .str)

/-- A successful `String(...)`-then-wrap result is always a string node. -/
theorem mapStr_ok (e : Except Unit String) (r : JsonValue)
    (h : e.map JsonValue.str = .ok r) : ∃ s, r = JsonValue.str s := by
  cases e with
  | ok s =>
      refine ⟨s, ?_⟩
      simpa [Except.map] using h.symm
  | error u => simp [Except.map] at h

/-- `stack || null` always yields the null node or a string node. -/
theorem stackOrNull_null_or_str (st : Option String) :
    stackOrNull st = JsonValue.null ∨ ∃ s, stackOrNull st = JsonValue.str s := by
  cases st with
  | none => exact Or.inl rfl
  | some s =>
      by_cases hs : s = ""
      · exact Or.inl (by simp [stackOrNull, hs])
      · exact Or.inr ⟨s, by simp [stackOrNull, hs]⟩

/-- The value of `stack || null` is JSON-safe. -/
theorem specJsonSafe_stackOrNull (st : Option String) :
    SpecJsonSafe (stackOrNull st) := by
  rcases stackOrNull_null_or_str st with h | ⟨s, h⟩
  · rw [h]; exact .null
  · rw [h]; exact .str s

/-- C1: the claim states that `errorToJsonValue` returns normally for every
input, including objects whose stringification throws.  The code violates
this: for a non-`Error` object whose `toString` throws (equivalently a
null-prototype object, where `ToPrimitive` throws a `TypeError`), the final
`String(error)` propagates that exception.  This theorem evaluates the code
at such an input and shows the exception escaping. -/
theorem errorToJsonValue_throws_on_throwing_toString :
    errorToJsonValue (JSValue.vObject [] (Except.error ())) = Except.error () := rfl

/-- C2: for every input that is not an `instanceof Error`, `errorToJsonValue`
returns exactly the platform-default string conversion `String(input)`
(e.g. `42 ↦ "42"`, `null ↦ "null"`), wrapped as a JSON string node. -/
theorem errorToJsonValue_nonError_eq_jsString (v : JSValue)
    (h : instanceofError v = false) :
    errorToJsonValue v = (jsString v).map JsonValue.str := by
  cases v <;> first
    | rfl
    | simp [instanceofError] at h

/-- Witness for C2 at the concrete inputs `42` and `null`. -/
theorem errorToJsonValue_nonError_eq_jsString_witness :
    instanceofError (JSValue.vNum 42) = false ∧
    errorToJsonValue (JSValue.vNum 42) = Except.ok (JsonValue.str "42") ∧
    instanceofError JSValue.vNull = false ∧
    errorToJsonValue JSValue.vNull = Except.ok (JsonValue.str "null") :=
  ⟨rfl, (errorToJsonValue_nonError_eq_jsString (JSValue.vNum 42) rfl).trans rfl,
   rfl, (errorToJsonValue_nonError_eq_jsString JSValue.vNull rfl).trans rfl⟩

/-- C3 counterexample: the claim promises the stack field equals every
defined stack string, including the empty string; but `stack || null`
coerces an empty (falsy) stack string to `null`, so for an `Error` with
`stack = ""` the output is not the record with `stack: ""`. -/
theorem errorToJsonValue_empty_stack_not_kept :
    errorToJsonValue (JSValue.vError "Error" "boom" (some "")) ≠
      Except.ok (JsonValue.obj
        [("name", JsonValue.str "Error"), ("message", JsonValue.str "boom"),
         ("stack", JsonValue.str "")]) := by
  simp [errorToJsonValue, stackOrNull]

/-- C3 (amended): for every `Error`-instance input whose stack is a defined
non-empty string, the output is exactly `{name, message, stack}` with the
stack field equal to that string. -/
theorem errorToJsonValue_nonempty_stack (name message s : String)
    (h : s ≠ "") :
    errorToJsonValue (JSValue.vError name message (some s)) =
      Except.ok (JsonValue.obj
        [("name", JsonValue.str name), ("message", JsonValue.str message),
         ("stack", JsonValue.str s)]) := by
  simp [errorToJsonValue, stackOrNull, h]

/-- Witness for C3 (amended) at spec §8 scenario 1. -/
theorem errorToJsonValue_nonempty_stack_witness :
    "TypeError: bad input\n at foo" ≠ "" ∧
    errorToJsonValue (JSValue.vError "TypeError" "bad input"
        (some "TypeError: bad input\n at foo")) =
      Except.ok (JsonValue.obj
        [("name", JsonValue.str "TypeError"),
         ("message", JsonValue.str "bad input"),
         ("stack", JsonValue.str "TypeError: bad input\n at foo")]) :=
  ⟨by decide,
   errorToJsonValue_nonempty_stack "TypeError" "bad input"
     "TypeError: bad input\n at foo" (by decide)⟩

/-- C4: for every `Error`-instance input with an undefined stack, the
returned record carries the field `stack` with the literal null node —
the field is present, never omitted. -/
theorem errorToJsonValue_undefined_stack_null (name message : String) :
    errorToJsonValue (JSValue.vError name message none) =
      Except.ok (JsonValue.obj
        [("name", JsonValue.str name), ("message", JsonValue.str message),
         ("stack", JsonValue.null)]) := rfl

/-- C5: an object carrying `name` and/or `message` own properties that is
not an actual `Error` instance does not take the error branch: recognition
is the nominal `instanceof Error` test, so the object is stringified like
any other non-error value. -/
theorem errorToJsonValue_error_mimic_stringified
    (fields : List (String × JSValue)) (toStr : Except Unit String)
    (_h : hasOwnProperty (JSValue.vObject fields toStr) "name" = true ∨
          hasOwnProperty (JSValue.vObject fields toStr) "message" = true) :
    instanceofError (JSValue.vObject fields toStr) = false ∧
    errorToJsonValue (JSValue.vObject fields toStr) =
      (jsString (JSValue.vObject fields toStr)).map JsonValue.str :=
  ⟨rfl, rfl⟩

/-- Witness for C5 at spec §8 scenario 5: a plain object with a `message`
field maps to its default string conversion `"[object Object]"`. -/
theorem errorToJsonValue_error_mimic_stringified_witness :
    hasOwnProperty (JSValue.vObject [("message", JSValue.vStr "not a real error")]
        (Except.ok "[object Object]")) "message" = true ∧
    instanceofError (JSValue.vObject [("message", JSValue.vStr "not a real error")]
        (Except.ok "[object Object]")) = false ∧
    errorToJsonValue (JSValue.vObject [("message", JSValue.vStr "not a real error")]
        (Except.ok "[object Object]")) =
      Except.ok (JsonValue.str "[object Object]") :=
  ⟨by rfl,
   (errorToJsonValue_error_mimic_stringified
      [("message", JSValue.vStr "not a real error")]
      (Except.ok "[object Object]") (Or.inr (by rfl))).1,
   ((errorToJsonValue_error_mimic_stringified
      [("message", JSValue.vStr "not a real error")]
      (Except.ok "[object Object]") (Or.inr (by rfl))).2).trans rfl⟩

/-- C6: whenever `errorToJsonValue` returns a value, that value lies in the
spec's closed set of JSON-safe values (no cycles, no functions, no native
error objects). -/
theorem errorToJsonValue_output_jsonSafe (v : JSValue) (r : JsonValue)
    (h : errorToJsonValue v = Except.ok r) : SpecJsonSafe r := by
  cases v
  case vError name message stack =>
    simp only [errorToJsonValue] at h
    injection h with h
    subst h
    refine .obj _ ?_
    intro p hp
    simp only [List.mem_cons, List.not_mem_nil, or_false] at hp
    rcases hp with rfl | rfl | rfl
    · exact .str name
    · exact .str message
    · exact specJsonSafe_stackOrNull stack
  all_goals
    (simp only [errorToJsonValue] at h;
     obtain ⟨s, rfl⟩ := mapStr_ok _ _ h;
     exact SpecJsonSafe.str s)

/-- Witness for C6 at the concrete input `null`. -/
theorem errorToJsonValue_output_jsonSafe_witness :
    errorToJsonValue JSValue.vNull = Except.ok (JsonValue.str "null") ∧
    SpecJsonSafe (JsonValue.str "null") :=
  ⟨rfl, errorToJsonValue_output_jsonSafe JSValue.vNull (JsonValue.str "null") rfl⟩

/-- C7: stringifying a string is the identity — `errorToJsonValue` maps
every string input to itself; consequently re-normalizing the string
output of a prior normalization returns that same string unchanged. -/
theorem errorToJsonValue_string_identity :
    (∀ s, errorToJsonValue (JSValue.vStr s) = Except.ok (JsonValue.str s)) ∧
    ∀ (v : JSValue) (s : String),
      errorToJsonValue v = Except.ok (JsonValue.str s) →
      errorToJsonValue (JSValue.vStr s) = Except.ok (JsonValue.str s) :=
  ⟨fun _ => rfl, fun _ _ _ => rfl⟩

/-- Witness for C7: a first normalization of `42` yields `"42"`, and
re-normalizing `"42"` returns it unchanged. -/
theorem errorToJsonValue_string_identity_witness :
    errorToJsonValue (JSValue.vNum 42) = Except.ok (JsonValue.str "42") ∧
    errorToJsonValue (JSValue.vStr "42") = Except.ok (JsonValue.str "42") :=
  ⟨rfl, errorToJsonValue_string_identity.2 (JSValue.vNum 42) "42" rfl⟩

/-- C8: `errorToJsonValue` is pure and deterministic.  In the state-passing
embedding the world is returned unchanged (no side effects), the result is
independent of the incoming world (no reads of shared state), and any two
runs on the same input agree with the pure function. -/
theorem errorToJsonValueSt_pure (w w2 : World) (v : JSValue) :
    (errorToJsonValueSt w v).1 = w ∧
    (errorToJsonValueSt w v).2 = (errorToJsonValueSt w2 v).2 ∧
    (errorToJsonValueSt w v).2 = errorToJsonValue v := by
  cases v <;> exact ⟨rfl, rfl, rfl⟩

/-- C9: for every `Error`-instance input whose stack is falsy — undefined
or the empty string — the stack field of the returned record is the null
node: the `|| null` coercion applies to every falsy stack value. -/
theorem errorToJsonValue_falsy_stack_null (name message : String) :
    errorToJsonValue (JSValue.vError name message none) =
      Except.ok (JsonValue.obj
        [("name", JsonValue.str name), ("message", JsonValue.str message),
         ("stack", JsonValue.null)]) ∧
    errorToJsonValue (JSValue.vError name message (some "")) =
      Except.ok (JsonValue.obj
        [("name", JsonValue.str name), ("message", JsonValue.str message),
         ("stack", JsonValue.null)]) :=
  ⟨rfl, by simp [errorToJsonValue, stackOrNull]⟩

/-- C10: every value `errorToJsonValue` returns is either a string node or
a flat record with exactly the keys `name`, `message`, `stack` (in that
order, string-valued except that `stack` may be null) — never null, a
number, a boolean, an array, or a nested structure at top level. -/
theorem errorToJsonValue_shape (v : JSValue) (r : JsonValue)
    (h : errorToJsonValue v = Except.ok r) :
    (∃ s, r = JsonValue.str s) ∨
    ∃ name message st,
      r = JsonValue.obj
        [("name", JsonValue.str name), ("message", JsonValue.str message),
         ("stack", st)] ∧
      (st = JsonValue.null ∨ ∃ s, st = JsonValue.str s) := by
  cases v
  case vError name message stack =>
    simp only [errorToJsonValue] at h
    injection h with h
    exact Or.inr ⟨name, message, stackOrNull stack, h.symm,
      stackOrNull_null_or_str stack⟩
  all_goals
    (simp only [errorToJsonValue] at h;
     exact Or.inl (mapStr_ok _ _ h))

/-- Witness for C10 at the concrete input `null`. -/
theorem errorToJsonValue_shape_witness :
    errorToJsonValue JSValue.vNull = Except.ok (JsonValue.str "null") ∧
    ((∃ s, JsonValue.str "null" = JsonValue.str s) ∨
     ∃ name message st,
       JsonValue.str "null" = JsonValue.obj
         [("name", JsonValue.str name), ("message", JsonValue.str message),
          ("stack", st)] ∧
       (st = JsonValue.null ∨ ∃ s, st = JsonValue.str s)) :=
  ⟨rfl, errorToJsonValue_shape JSValue.vNull (JsonValue.str "null") rfl⟩

end SyntropyTypes
